import Mathlib

/-!
Shallow embedding of the LabHoney honeypot (src/honeypot.py, src/handlers.py).

Modelling conventions:
* Python `bytes` values are `List Nat` with each element a byte value (< 256).
* Python exceptions are the `PyErr` type; a fallible computation returns
  `Except PyErr α`.  A bare `except: pass` is modelled by discarding the
  `.error` case.
* The asyncio transport is modelled by explicit inputs: the outcome of each
  `reader.read` call is an input (`ReadRes` for the single bounded read of the
  http/banner handlers, a list of `GRead` for the read loop of the generic
  handler), and the writer is a `WState` recording the chunks written and
  whether `close()` was called.  Writes and drains themselves are assumed to
  succeed; timeouts and read failures are explicit `ReadRes` values.
* The log sink (`ctx["logger"]`, a callable logger or the fallback JSONL file
  append) is modelled by a `Sink` whose environment-determined outcome is
  either success (the record is appended to an explicit log list) or a raised
  `PyErr`.
* Timestamps (`datetime.utcnow().isoformat()`) are environmental and carried
  by no claim, so records omit the `ts` field.
-/

abbrev Bytes := List Nat

/-- Python exception values, identified by class and message. -/
inductive PyErr where
  | timeoutError
  | typeError (msg : String)
  | attributeError (msg : String)
  | permissionError
  | unicodeDecodeError
  | unicodeEncodeError
  | oserror (msg : String)
  | custom (msg : String)
deriving DecidableEq, Repr

/-- Python `str(e)` on an exception: the message text. -/
def errStr : PyErr → String
  | .timeoutError => ""
  | .typeError m => m
  | .attributeError m => m
  | .permissionError => "Permission denied"
  | .unicodeDecodeError => "unicodeescape codec cannot decode"
  | .unicodeEncodeError => "utf-8 codec cannot encode"
  | .oserror m => m
  | .custom m => m

/-- Lowercase hex digit character code for a value below 16,
as produced by `binascii.hexlify`. -/
def hexDigit (d : Nat) : Nat :=
  if d < 10 then 48 + d else 87 + d

/-- Model of `binascii.hexlify(data).decode()`: two lowercase hex digit
characters per byte. -/
def hexlify (data : Bytes) : Bytes :=
  (data.map (fun b => [hexDigit (b / 16), hexDigit (b % 16)])).flatten

/-- Whether a continuation byte of a UTF-8 sequence. -/
def contByte (c : Nat) : Bool := 0x80 ≤ c && c ≤ 0xBF

/-- Model of Python `data.decode("utf-8", errors="replace")`: a total UTF-8
decoder that substitutes U+FFFD for invalid sequences and never raises (the
source wraps the call in a `try` that can never fire).  The development relies
only on the totality of this function, not on the exact placement of
replacement characters. -/
def utf8DecodeReplaceGo : Nat → Bytes → List Nat
  | _, [] => []
  | 0, _ => []
  | fuel + 1, b :: rest =>
    if b < 0x80 then b :: utf8DecodeReplaceGo fuel rest
    else if 0xC2 ≤ b && b ≤ 0xDF then
      match rest with
      | c1 :: rest1 =>
        if contByte c1 then
          ((b - 0xC0) * 64 + (c1 - 0x80)) :: utf8DecodeReplaceGo fuel rest1
        else 0xFFFD :: utf8DecodeReplaceGo fuel rest
      | [] => [0xFFFD]
    else if 0xE0 ≤ b && b ≤ 0xEF then
      match rest with
      | c1 :: c2 :: rest2 =>
        if contByte c1 && contByte c2 then
          ((b - 0xE0) * 4096 + (c1 - 0x80) * 64 + (c2 - 0x80)) :: utf8DecodeReplaceGo fuel rest2
        else 0xFFFD :: utf8DecodeReplaceGo fuel rest
      | _ => 0xFFFD :: utf8DecodeReplaceGo fuel rest
    else if 0xF0 ≤ b && b ≤ 0xF4 then
      match rest with
      | c1 :: c2 :: c3 :: rest3 =>
        if contByte c1 && contByte c2 && contByte c3 then
          ((b - 0xF0) * 262144 + (c1 - 0x80) * 4096 + (c2 - 0x80) * 64 + (c3 - 0x80))
            :: utf8DecodeReplaceGo fuel rest3
        else 0xFFFD :: utf8DecodeReplaceGo fuel rest
      | _ => 0xFFFD :: utf8DecodeReplaceGo fuel rest
    else 0xFFFD :: utf8DecodeReplaceGo fuel rest

/-- Total wrapper: the fuel, one unit per input byte, always suffices because
every step consumes at least one byte. -/
def utf8DecodeReplace (l : Bytes) : List Nat :=
  utf8DecodeReplaceGo l.length l

/-- UTF-8 encoding of one code point.  Total helper: Python `str.encode()`
raises UnicodeEncodeError on lone surrogates, so every caller that can see a
surrogate (only the escape-decoded banner pipeline; Lean `Char` cannot be a
surrogate) guards this with `pyStrEncodeUtf8`. -/
def utf8EncodeChar (c : Nat) : Bytes :=
  if c < 0x80 then [c]
  else if c < 0x800 then [0xC0 + c / 64, 0x80 + c % 64]
  else if c < 0x10000 then [0xE0 + c / 4096, 0x80 + c / 64 % 64, 0x80 + c % 64]
  else [0xF0 + c / 262144, 0x80 + c / 4096 % 64, 0x80 + c / 64 % 64, 0x80 + c % 64]

/-- UTF-8 encoding of a sequence of code points. -/
def utf8Encode (cs : List Nat) : Bytes :=
  (cs.map utf8EncodeChar).flatten

/-- Model of Python `str.encode()` on a Lean string: UTF-8 bytes of its
characters. -/
def pyEncode (s : String) : Bytes :=
  utf8Encode (s.data.map Char.toNat)

/-- Hex digit value of a character code, accepting both cases
(as `unicode_escape` does). -/
def hexVal (c : Nat) : Option Nat :=
  if 48 ≤ c ∧ c ≤ 57 then some (c - 48)
  else if 97 ≤ c ∧ c ≤ 102 then some (c - 87)
  else if 65 ≤ c ∧ c ≤ 70 then some (c - 55)
  else none

/-- Octal digit value of a character code. -/
def octVal (c : Nat) : Option Nat :=
  if 48 ≤ c ∧ c ≤ 55 then some (c - 48) else none

/-- Model of Python `bytes.decode("unicode_escape")`: input bytes are read as
Latin-1 code points and backslash escape sequences are replaced by the code
point they denote; `none` models a raised UnicodeDecodeError.  Faithful to
the codec on: the single-character escapes (backslash-n, -r, -t, -a, -b, -f,
-v, backslash, both quotes, escaped newline), octal escapes of up to three
digits, backslash-x with exactly two hex digits, backslash-u with exactly
four, backslash-U with exactly eight and a code-point range check, any other
single-character escape kept verbatim as the codec does, and the raising
cases: a trailing lone backslash and truncated or malformed backslash-x/u/U
escapes.  Backslash-N named escapes need the environmental Unicode name
database, so the model conservatively reports them as undecodable; every
theorem quantifying over configurations assumes decode success and therefore
claims nothing about named escapes. -/
def pyUnicodeEscapeGo : Nat → List Nat → Option (List Nat)
  | _, [] => some []
  | 0, l => some l
  | fuel + 1, 92 :: rest =>
    match rest with
    | [] => none
    | e :: rest1 =>
      if e = 110 then (pyUnicodeEscapeGo fuel rest1).map (fun t => 10 :: t)
      else if e = 114 then (pyUnicodeEscapeGo fuel rest1).map (fun t => 13 :: t)
      else if e = 116 then (pyUnicodeEscapeGo fuel rest1).map (fun t => 9 :: t)
      else if e = 92 then (pyUnicodeEscapeGo fuel rest1).map (fun t => 92 :: t)
      else if e = 39 then (pyUnicodeEscapeGo fuel rest1).map (fun t => 39 :: t)
      else if e = 34 then (pyUnicodeEscapeGo fuel rest1).map (fun t => 34 :: t)
      else if e = 97 then (pyUnicodeEscapeGo fuel rest1).map (fun t => 7 :: t)
      else if e = 98 then (pyUnicodeEscapeGo fuel rest1).map (fun t => 8 :: t)
      else if e = 102 then (pyUnicodeEscapeGo fuel rest1).map (fun t => 12 :: t)
      else if e = 118 then (pyUnicodeEscapeGo fuel rest1).map (fun t => 11 :: t)
      else if e = 10 then pyUnicodeEscapeGo fuel rest1
      else if 48 ≤ e ∧ e ≤ 55 then
        match rest1 with
        | [] => some [e - 48]
        | d2 :: rest2 =>
          match octVal d2 with
          | none => (pyUnicodeEscapeGo fuel rest1).map (fun t => (e - 48) :: t)
          | some v2 =>
            match rest2 with
            | [] => some [(e - 48) * 8 + v2]
            | d3 :: rest3 =>
              match octVal d3 with
              | none => (pyUnicodeEscapeGo fuel rest2).map (fun t => ((e - 48) * 8 + v2) :: t)
              | some v3 =>
                (pyUnicodeEscapeGo fuel rest3).map (fun t => ((e - 48) * 64 + v2 * 8 + v3) :: t)
      else if e = 120 then
        match rest1 with
        | h1 :: h2 :: rest2 =>
          match hexVal h1, hexVal h2 with
          | some a, some b => (pyUnicodeEscapeGo fuel rest2).map (fun t => (a * 16 + b) :: t)
          | _, _ => none
        | _ => none
      else if e = 117 then
        match rest1 with
        | h1 :: h2 :: h3 :: h4 :: rest4 =>
          match hexVal h1, hexVal h2, hexVal h3, hexVal h4 with
          | some a, some b, some c, some d =>
            (pyUnicodeEscapeGo fuel rest4).map
              (fun t => ((((a * 16 + b) * 16 + c) * 16 + d)) :: t)
          | _, _, _, _ => none
        | _ => none
      else if e = 85 then
        match rest1 with
        | h1 :: h2 :: h3 :: h4 :: h5 :: h6 :: h7 :: h8 :: rest8 =>
          match hexVal h1, hexVal h2, hexVal h3, hexVal h4,
                hexVal h5, hexVal h6, hexVal h7, hexVal h8 with
          | some a, some b, some c, some d, some a2, some b2, some c2, some d2 =>
            let v := (((((((a * 16 + b) * 16 + c) * 16 + d) * 16 + a2) * 16 + b2)
              * 16 + c2) * 16 + d2)
            if v ≤ 0x10FFFF then (pyUnicodeEscapeGo fuel rest8).map (fun t => v :: t)
            else none
          | _, _, _, _, _, _, _, _ => none
        | _ => none
      else if e = 78 then none
      else (pyUnicodeEscapeGo fuel rest1).map (fun t => 92 :: e :: t)
  | fuel + 1, c :: rest => (pyUnicodeEscapeGo fuel rest).map (fun t => c :: t)

/-- Total wrapper: the fuel, one unit per input code point, always suffices
because every step consumes at least one code point. -/
def pyUnicodeEscape (l : List Nat) : Option (List Nat) :=
  pyUnicodeEscapeGo l.length l

/-- Code points Python's UTF-8 `str.encode()` accepts: everything except the
surrogate range, on which it raises UnicodeEncodeError. -/
def encodableCp (c : Nat) : Bool :=
  decide (c < 0xD800 ∨ (0xDFFF < c ∧ c ≤ 0x10FFFF))

/-- Model of Python `str.encode()` on an escape-decoded code-point sequence:
raises (returns `none`) when a lone surrogate, reachable via a backslash-u
escape, is present; otherwise the UTF-8 bytes. -/
def pyStrEncodeUtf8 (cs : List Nat) : Option Bytes :=
  if cs.all encodableCp then some (utf8Encode cs) else none

/-- An interaction record as built by `log_interaction` (handlers.py lines
12-21); the environmental `ts` field is omitted. -/
structure IRecord where
  role : String
  peer : Option String
  peer_port : Option Nat
  service : Option String
  raw_hex : Bytes
  raw_text : Option (List Nat)
deriving DecidableEq, Repr

/-- A handler-exception record as built by `client_connected`
(honeypot.py lines 72-80); the environmental `ts` field is omitted. -/
structure ERecord where
  port : Nat
  handler : String
  error : String
deriving DecidableEq, Repr

/-- A line of the interaction log: either an interaction record or a
handler-exception event. -/
inductive Record where
  | i (r : IRecord)
  | e (r : ERecord)
deriving DecidableEq, Repr

/-- Model of the configured log sink.  `isCallable` selects the branch taken
by `log_interaction` (`if callable(logger)`), and the `Option PyErr` fields
give the environment-determined outcome of invoking the callable logger
respectively of the fallback JSONL file append: `none` means the call
succeeds and the record is appended to the log. -/
structure Sink where
  isCallable : Bool
  callFail : Option PyErr
  fileFail : Option PyErr
deriving DecidableEq, Repr

/-- A sink on which both the callable invocation and the fallback file append
succeed. -/
def Sink.ok : Sink := ⟨true, none, none⟩

/-- Subset of the per-connection context dict used by the source: the keys
`logger`, `peer`, `peer_port`, `service` (absent keys are `none`, matching
`ctx.get`). -/
structure Ctx where
  logger : Sink
  peer : Option String
  peer_port : Option Nat
  service : Option String
deriving DecidableEq, Repr

/-- The record value built by `log_interaction` before the sink is invoked
(handlers.py lines 12-26): `raw_hex` from `binascii.hexlify`, `raw_text` from
the guarded UTF-8 decode with replacement, which always succeeds, so the
initial `None` is always overwritten. -/
def mkRecord (ctx : Ctx) (role : String) (data : Bytes) : IRecord :=
  { role := role
    peer := ctx.peer
    peer_port := ctx.peer_port
    service := ctx.service
    raw_hex := hexlify data
    raw_text := some (utf8DecodeReplace data) }

/-- Model of `log_interaction(ctx, role, data_bytes)` (handlers.py lines
10-34): builds the record, then writes it with the callable logger if one is
configured, otherwise appends to the fallback JSONL file.  Neither sink call
is guarded, so a sink failure propagates to the caller. -/
def log_interaction (ctx : Ctx) (role : String) (data : Bytes)
    (log : List Record) : Except PyErr (List Record) :=
  let record := mkRecord ctx role data
  if ctx.logger.isCallable then
    match ctx.logger.callFail with
    | none => .ok (log ++ [Record.i record])
    | some e => .error e
  else
    match ctx.logger.fileFail with
    | none => .ok (log ++ [Record.i record])
    | some e => .error e

/-- Writer-side connection state: the chunks written so far and whether
`writer.close()` has been called. -/
structure WState where
  written : List Bytes
  closed : Bool
deriving DecidableEq, Repr

/-- Outcome of a single `asyncio.wait_for(reader.read(n), timeout)` call:
data arrived (an empty list models EOF), the deadline expired
(`asyncio.TimeoutError`), or the read raised some other exception. -/
inductive ReadRes where
  | bytes (b : Bytes)
  | timeout
  | raise (e : PyErr)
deriving DecidableEq, Repr

/-- Outcome of one `reader.read(4096)` call inside the generic handler loop
(no timeout wrapper): data (empty models EOF) or a raised exception. -/
inductive GRead where
  | chunk (b : Bytes)
  | raise (e : PyErr)
deriving DecidableEq, Repr

instance {ε α : Type} [DecidableEq ε] [DecidableEq α] : DecidableEq (Except ε α)
  | .ok a, .ok b =>
    if h : a = b then .isTrue (by rw [h]) else .isFalse (by intro hh; cases hh; exact h rfl)
  | .ok _, .error _ => .isFalse (by intro h; cases h)
  | .error _, .ok _ => .isFalse (by intro h; cases h)
  | .error e, .error f =>
    if h : e = f then .isTrue (by rw [h]) else .isFalse (by intro hh; cases hh; exact h rfl)

/-- Result of running a handler (or the supervisor): final context, writer
state, log, and normal return or raised exception. -/
structure HRes where
  ctx : Ctx
  w : WState
  log : List Record
  result : Except PyErr Unit
deriving DecidableEq, Repr

/-- Model of the peer-info lines at the top of each handler
(handlers.py lines 45-46, 71-72, 97-98):
`ctx["peer"], ctx["peer_port"] = peer[0], peer[1] if peer else (None, None)`.
By Python precedence the right-hand side is
`(peer[0], (peer[1] if peer else (None, None)))`, so when `peername` is
`None` the evaluation of `peer[0]` raises TypeError. -/
def setPeerInfo (peer : Option (String × Nat)) (ctx : Ctx) : Except PyErr Ctx :=
  match peer with
  | none => .error (.typeError "NoneType object is not subscriptable")
  | some (a, p) => .ok { ctx with peer := some a, peer_port := some p }

/-- The `try`/`except asyncio.TimeoutError` wrapper around the bounded read
in the http and banner handlers: a timeout becomes empty data, any other
exception propagates. -/
def readOutcome : ReadRes → Except PyErr Bytes
  | .bytes b => .ok b
  | .timeout => .ok []
  | .raise e => .error e

/-- The `HTTP_RESPONSE` template of handlers.py lines 37-42.  It is a Python
`bytes` literal (note the `b"""` prefix), with bare LF line endings and a
trailing LF after the body placeholder. -/
def HTTP_RESPONSE : Bytes :=
  pyEncode "HTTP/1.1 200 OK\nContent-Type: text/html; charset=utf-8\nContent-Length: {length}\n\n{body}\n"

/-- The static body string of handlers.py line 55. -/
def HTTP_BODY : String :=
  "<html><body><h1>Welcome</h1><p>This is a honeypot HTTP page.</p></body></html>"

/-- Model of the expression `HTTP_RESPONSE.format(length=..., body=...)` in
handlers.py line 56: in Python 3 the `bytes` type has no `format` method, so
attribute lookup raises AttributeError before any substitution happens. -/
def bytesFormat (_template : Bytes) (_length : Nat) (_body : String) : Except PyErr Bytes :=
  .error (.attributeError "bytes object has no attribute format")

/-- Model of `http_handler(reader, writer, ctx)` (handlers.py lines 44-67).
Inputs: the transport peername, the outcome of the single bounded read
(4096 bytes, 3 s timeout), the incoming context, writer state and log. -/
def http_handler (peer : Option (String × Nat)) (rd : ReadRes)
    (ctx : Ctx) (w : WState) (log : List Record) : HRes :=
  match setPeerInfo peer ctx with
  | .error e => ⟨ctx, w, log, .error e⟩
  | .ok ctx1 =>
    let ctx2 := { ctx1 with service := some "http" }
    match readOutcome rd with
    | .error e => ⟨ctx2, w, log, .error e⟩
    | .ok data =>
      match (if data ≠ [] then log_interaction ctx2 "client" data log else .ok log) with
      | .error e => ⟨ctx2, w, log, .error e⟩
      | .ok log1 =>
        match bytesFormat HTTP_RESPONSE HTTP_BODY.length HTTP_BODY with
        | .error e => ⟨ctx2, w, log1, .error e⟩
        | .ok resp =>
          match log_interaction ctx2 "server" resp log1 with
          | .error e => ⟨ctx2, w, log1, .error e⟩
          | .ok log2 =>
            let w1 := { w with written := w.written ++ [resp] }
            ⟨ctx2, { w1 with closed := true }, log2, .ok ()⟩

/-- Model of `banner_handler(reader, writer, ctx, banner)` (handlers.py lines
70-94).  The banner write, drain and server-side log sit inside a bare
`try`/`except: pass`; writes are assumed to succeed, so the only failure that
block can swallow is a failing sink.  The bounded read (2048 bytes, 10 s
timeout) turns a timeout into empty data; the client-side log call is not
guarded, so a failing sink there propagates past the final close. -/
def banner_handler (banner : Bytes) (peer : Option (String × Nat)) (rd : ReadRes)
    (ctx : Ctx) (w : WState) (log : List Record) : HRes :=
  match setPeerInfo peer ctx with
  | .error e => ⟨ctx, w, log, .error e⟩
  | .ok ctx1 =>
    let ctx2 := { ctx1 with service := some "banner" }
    let w1 := { w with written := w.written ++ [banner] }
    let log1 := match log_interaction ctx2 "server" banner log with
                | .ok l => l
                | .error _ => log
    match readOutcome rd with
    | .error e => ⟨ctx2, w1, log1, .error e⟩
    | .ok data =>
      match (if data ≠ [] then log_interaction ctx2 "client" data log1 else .ok log1) with
      | .error e => ⟨ctx2, w1, log1, .error e⟩
      | .ok log2 => ⟨ctx2, { w1 with closed := true }, log2, .ok ()⟩

/-- The read loop of `generic_tcp_handler` (handlers.py lines 102-110): read,
stop on empty data, log as client, write back when `echo` is set.  Returns
the writer state, the log, and the outcome the surrounding
`try`/`except Exception` sees. -/
def generic_loop (echo : Bool) (ctx : Ctx) :
    List GRead → WState → List Record → WState × List Record × Except PyErr Unit
  | [], w, log => (w, log, .ok ())
  | .raise e :: _, w, log => (w, log, .error e)
  | .chunk [] :: _, w, log => (w, log, .ok ())
  | .chunk b :: rest, w, log =>
    match log_interaction ctx "client" b log with
    | .error e => (w, log, .error e)
    | .ok log1 =>
      let w1 := if echo then { w with written := w.written ++ [b] } else w
      generic_loop echo ctx rest w1 log1

/-- Model of `generic_tcp_handler(reader, writer, ctx, echo)` (handlers.py
lines 96-116).  The peer-info lines run before the `try`, so their TypeError
on an absent peername propagates with the writer untouched; everything inside
the loop is caught by `except Exception: pass`, and the `finally` block
always closes the writer.  After the supplied read outcomes are exhausted the
next read is an EOF (empty data). -/
def generic_tcp_handler (echo : Bool) (peer : Option (String × Nat))
    (rds : List GRead) (ctx : Ctx) (w : WState) (log : List Record) : HRes :=
  match setPeerInfo peer ctx with
  | .error e => ⟨ctx, w, log, .error e⟩
  | .ok ctx1 =>
    let ctx2 := { ctx1 with service := some (ctx1.service.getD "tcp") }
    match generic_loop echo ctx2 rds w log with
    | (w1, log1, _) => ⟨ctx2, { w1 with closed := true }, log1, .ok ()⟩

/-- A listener configuration dict (honeypot.py DEFAULT_CONFIG and
`start_listener`): the keys the core reads. -/
structure ListenerCfg where
  port : Nat
  handler : String
  banner : Option String
  echo : Bool
  service : Option String
deriving DecidableEq, Repr

/-- The banner bytes computation the banner wrapper in `start_listener`
performs per connection (honeypot.py line 52): take the configured banner
string (defaulted), encode it, decode with `unicode_escape` and re-encode as
UTF-8.  Either codec step can raise (malformed escapes, surrogate escapes),
and the exception then escapes the wrapper coroutine to the supervisor. -/
def bannerDecode (cfg : Option String) : Except PyErr Bytes :=
  match pyUnicodeEscape (pyEncode (cfg.getD "SSH-2.0-OpenSSH_7.4\r\n")) with
  | none => .error .unicodeDecodeError
  | some cps =>
    match pyStrEncodeUtf8 cps with
    | none => .error .unicodeEncodeError
    | some bs => .ok bs

/-- The banner bytes actually transmitted when the decode pipeline succeeds;
when it fails the wrapper raises before `banner_handler` runs (see
`runSelected`) and this value is never used. -/
def bannerBytesOf (cfg : Option String) : Bytes :=
  match bannerDecode cfg with
  | .ok bs => bs
  | .error _ => []

/-- The handler variant `start_listener` selects from a config
(honeypot.py lines 47-60): `http`, `banner` (with the raw configured banner
string) or the generic fallback (with the echo flag, optional service name
and port for the default service name). -/
inductive HKind where
  | http
  | banner (cfg : Option String)
  | generic (echo : Bool) (service : Option String) (port : Nat)
deriving DecidableEq, Repr

/-- Handler selection in `start_listener` (honeypot.py lines 47-60): by the
configured handler name, anything other than `http` and `banner` falling
through to the generic handler. -/
def selectKind (cfg : ListenerCfg) : HKind :=
  if cfg.handler = "http" then .http
  else if cfg.handler = "banner" then .banner cfg.banner
  else .generic cfg.echo cfg.service cfg.port

/-- The per-connection environment: the transport peername, the outcome of
the single bounded read used by the http and banner handlers, and the read
sequence consumed by the generic handler loop. -/
structure ConnInput where
  peer : Option (String × Nat)
  rd : ReadRes
  rds : List GRead
deriving DecidableEq, Repr

/-- Running the handler `start_listener` selected on one connection: dispatch
to the three handler models, applying the per-kind wrappers (banner escape
decoding, generic service naming) of honeypot.py lines 50-60. -/
def runSelected (k : HKind) (inp : ConnInput) (ctx : Ctx) (w : WState)
    (log : List Record) : HRes :=
  match k with
  | .http => http_handler inp.peer inp.rd ctx w log
  | .banner cfg =>
    match bannerDecode cfg with
    | .error e => ⟨ctx, w, log, .error e⟩
    | .ok banner => banner_handler banner inp.peer inp.rd ctx w log
  | .generic echo service port =>
    generic_tcp_handler echo inp.peer inp.rds
      { ctx with service := some (service.getD ("tcp_" ++ toString port)) } w log

/-- The context `client_connected` builds before invoking the handler
(honeypot.py lines 63-70): a copy of `ctx_base` (holding the logger) with
peer info set, absent peername correctly mapped to a pair of `None`. -/
def superCtx (sink : Sink) (peer : Option (String × Nat)) : Ctx :=
  { logger := sink
    peer := peer.map Prod.fst
    peer_port := peer.map Prod.snd
    service := none }

/-- Model of the `client_connected` closure of `start_listener` (honeypot.py
lines 63-80): build the context, run the selected handler, and on any
`Exception` escaping it append one `handler_exception` record (listener port,
configured handler name, `str(e)`) through the listener logger.  The logger
call in the except branch is itself unguarded. -/
def client_connected (cfg : ListenerCfg) (sink : Sink) (inp : ConnInput)
    (w : WState) (log : List Record) : HRes :=
  let ctx := superCtx sink inp.peer
  let r := runSelected (selectKind cfg) inp ctx w log
  match r.result with
  | .ok _ => r
  | .error e =>
    match sink.callFail with
    | none =>
      { r with log := r.log ++ [Record.e ⟨cfg.port, cfg.handler, errStr e⟩]
               result := .ok () }
    | some e2 => { r with result := .error e2 }

/-- Model of `start_listener` up to its bind call (honeypot.py line 85):
`asyncio.start_server` either binds, yielding the server handle, or raises;
the outcome is environmental, supplied by `bindEnv`. -/
def start_listener (bindEnv : ListenerCfg → Option PyErr) (cfg : ListenerCfg) :
    Except PyErr ListenerCfg :=
  match bindEnv cfg with
  | some e => .error e
  | none => .ok cfg

/-- Model of the listener loop of `run_from_config` (honeypot.py lines
90-104): try to start each listener, collect the handles of those that bind,
and for each failure emit one diagnostic line, distinguishing
PermissionError; no exception escapes the loop. -/
def run_from_config (bindEnv : ListenerCfg → Option PyErr) :
    List ListenerCfg → List ListenerCfg × List String
  | [] => ([], [])
  | c :: rest =>
    match start_listener bindEnv c with
    | .ok srv =>
      let (srvs, msgs) := run_from_config bindEnv rest
      (srv :: srvs, msgs)
    | .error .permissionError =>
      let (srvs, msgs) := run_from_config bindEnv rest
      (srvs, ("Errore: permessi insufficienti per aprire porta " ++ toString c.port) :: msgs)
    | .error e =>
      let (srvs, msgs) := run_from_config bindEnv rest
      (srvs, ("Errore creazione listener: " ++ errStr e) :: msgs)

/-- Specification-side predicate: a lowercase hexadecimal digit character. -/
def isLowerHexDigit (c : Nat) : Bool :=
  (48 ≤ c && c ≤ 57) || (97 ≤ c && c ≤ 102)

/-- Specification-side inverse of a lowercase hex digit character. -/
def unhexDigit (c : Nat) : Option Nat :=
  if 48 ≤ c ∧ c ≤ 57 then some (c - 48)
  else if 97 ≤ c ∧ c ≤ 102 then some (c - 87)
  else none

/-- Specification-side decoder of a lowercase hex string back to bytes, two
digits per byte; used to state that `raw_hex` is the exact encoding. -/
def unhexBytes : Bytes → Option Bytes
  | [] => some []
  | [_] => none
  | c1 :: c2 :: rest =>
    match unhexDigit c1, unhexDigit c2, unhexBytes rest with
    | some a, some b, some bs => some ((a * 16 + b) :: bs)
    | _, _, _ => none

/-- Specification-side predicate: a log line that is an interaction record
with the server role. -/
def isServerRecord : Record → Bool
  | .i r => r.role == "server"
  | .e _ => false

/-- The context resulting from the peer-info and service lines at the top of
`generic_tcp_handler` when the peername is present. -/
def genericCtx (ctx : Ctx) (a : String) (p : Nat) : Ctx :=
  { ctx with peer := some a, peer_port := some p,
             service := some (ctx.service.getD "tcp") }

lemma unhex_hexDigit : ∀ d < 16, unhexDigit (hexDigit d) = some d := by decide

lemma lower_hexDigit : ∀ d < 16, isLowerHexDigit (hexDigit d) = true := by decide

lemma unhex_hex_byte (b : Nat) (h : b < 256) :
    unhexDigit (hexDigit (b / 16)) = some (b / 16) ∧
    unhexDigit (hexDigit (b % 16)) = some (b % 16) := by
  exact ⟨unhex_hexDigit _ (by omega), unhex_hexDigit _ (Nat.mod_lt _ (by omega))⟩

lemma unhex_hexlify (data : Bytes) (h : ∀ b ∈ data, b < 256) :
    unhexBytes (hexlify data) = some data := by
  induction data with
  | nil => rfl
  | cons b rest ih =>
    have hb : b < 256 := h b (by simp)
    obtain ⟨e1, e2⟩ := unhex_hex_byte b hb
    have : hexlify (b :: rest) = hexDigit (b / 16) :: hexDigit (b % 16) :: hexlify rest := by
      simp [hexlify]
    rw [this]
    unfold unhexBytes
    rw [e1, e2, ih (fun x hx => h x (by simp [hx]))]
    simp
    omega

lemma hexlify_lower (data : Bytes) (h : ∀ b ∈ data, b < 256) :
    ∀ c ∈ hexlify data, isLowerHexDigit c = true := by
  intro c hc
  unfold hexlify at hc
  simp [List.mem_flatten] at hc
  obtain ⟨b, hb, hcases⟩ := hc
  have hb256 : b < 256 := h b hb
  rcases hcases with h1 | h1 <;> subst h1 <;> apply lower_hexDigit
  · omega
  · exact Nat.mod_lt _ (by omega)


lemma http_handler_raises (peer : Option (String × Nat))
    (rd : ReadRes) (ctx : Ctx) (w : WState) (log : List Record) :
    (http_handler peer rd ctx w log).result ≠ Except.ok () ∧
    (http_handler peer rd ctx w log).w.written = w.written := by
  unfold http_handler setPeerInfo readOutcome log_interaction bytesFormat
  rcases peer with _ | ⟨a, p⟩ <;> rcases rd with b | _ | e <;>
    simp <;> split <;> simp_all

lemma banner_handler_ok_closed (banner : Bytes) (peer : Option (String × Nat))
    (rd : ReadRes) (ctx : Ctx) (w : WState) (log : List Record)
    (h : (banner_handler banner peer rd ctx w log).result = .ok ()) :
    (banner_handler banner peer rd ctx w log).w.closed = true := by
  obtain ⟨⟨ic, cf, ff⟩, cp, cpp, cs⟩ := ctx
  rcases peer with _ | ⟨a, p⟩ <;>
    rcases rd with b | _ | e <;>
    rcases ic <;> rcases cf with _ | e1 <;> rcases ff with _ | e2 <;>
    simp_all [banner_handler, setPeerInfo, readOutcome, log_interaction] <;>
    split at h <;> simp_all

lemma generic_handler_closed (echo : Bool) (peer : Option (String × Nat))
    (rds : List GRead) (ctx : Ctx) (w : WState) (log : List Record)
    (h : (generic_tcp_handler echo peer rds ctx w log).result = .ok ()) :
    (generic_tcp_handler echo peer rds ctx w log).w.closed = true := by
  unfold generic_tcp_handler setPeerInfo at h ⊢
  rcases peer with _ | ⟨a, p⟩
  · simp_all
  · simp_all

/-- C1: the claim says every connection to the HTTP listener gets back a
well-formed HTTP/1.1 200 response whose Content-Length matches the body.
The code cannot do this: `HTTP_RESPONSE` is a bytes literal and
`HTTP_RESPONSE.format(...)` raises AttributeError in Python 3, so
`http_handler` raises on every input and never writes a single byte to the
peer. -/
theorem C1_http_handler_never_writes_response (peer : Option (String × Nat))
    (rd : ReadRes) (ctx : Ctx) (w : WState) (log : List Record) :
    (http_handler peer rd ctx w log).result ≠ Except.ok () ∧
    (http_handler peer rd ctx w log).w.written = w.written :=
  http_handler_raises peer rd ctx w log

/-- C2 counterexample: the claim says `log_interaction` never raises to its
caller even when the configured sink raises.  With a callable logger that
raises, the unguarded `logger(record)` call propagates the exception. -/
theorem C2_counterexample_sink_failure_propagates :
    log_interaction ⟨⟨true, some (.custom "sink failure"), none⟩, none, none, none⟩
      "client" [112] [] = .error (.custom "sink failure") := rfl

/-- Whether the one sink call `log_interaction` makes on this sink (the
callable logger if `callable(logger)`, else the fallback file append)
succeeds. -/
def Sink.callOk (s : Sink) : Prop :=
  (if s.isCallable then s.callFail else s.fileFail) = none

lemma log_interaction_ok (ctx : Ctx) (role : String)
    (data : Bytes) (log : List Record) (h : ctx.logger.callOk) :
    log_interaction ctx role data log =
      .ok (log ++ [Record.i (mkRecord ctx role data)]) := by
  unfold log_interaction
  unfold Sink.callOk at h
  split at h <;> simp_all

/-- C2 amended: `log_interaction` never raises from record construction (the
hexlify and the guarded UTF-8 decode are total) and returns normally,
appending exactly one record, whenever the sink call succeeds; an exception
raised by the configured sink, however, propagates to the caller. -/
theorem C2_log_interaction_ok_when_sink_ok (ctx : Ctx) (role : String)
    (data : Bytes) (log : List Record) (h : ctx.logger.callOk) :
    log_interaction ctx role data log =
      .ok (log ++ [Record.i (mkRecord ctx role data)]) :=
  log_interaction_ok ctx role data log h

/-- C2 amended witness at a concrete input. -/
theorem C2_log_interaction_ok_when_sink_ok_witness :
    log_interaction ⟨Sink.ok, none, none, none⟩ "client" [112, 105] [] =
      .ok ([] ++ [Record.i (mkRecord ⟨Sink.ok, none, none, none⟩ "client" [112, 105])]) :=
  C2_log_interaction_ok_when_sink_ok ⟨Sink.ok, none, none, none⟩ "client" [112, 105] [] rfl

/-- C3 counterexample: the claim says every exit path leaves the writer
closed by the time control leaves the handler/supervisor layer.  On the HTTP
listener the handler raises (bytes has no format method), the supervisor
swallows the exception and returns normally, and nobody has called
`writer.close()`: the connection leaves the supervisor layer open. -/
theorem C3_counterexample_supervisor_leaves_writer_open :
    (client_connected ⟨80, "http", none, false, none⟩ Sink.ok
        ⟨some ("1.2.3.4", 40000), .timeout, []⟩ ⟨[], false⟩ []).result = .ok () ∧
    (client_connected ⟨80, "http", none, false, none⟩ Sink.ok
        ⟨some ("1.2.3.4", 40000), .timeout, []⟩ ⟨[], false⟩ []).w.closed = false := by
  constructor <;> rfl

/-- C3 amended: a handler invocation that completes without an exception does
leave the writer closed (this covers normal completion, read timeout and
remote disconnect for all three handlers, and any swallowed fault of the
generic handler); but an exception escaping a handler reaches the supervisor,
which logs it without closing the writer, so on those paths the connection is
left open. -/
theorem C3_writer_closed_on_normal_exit (k : HKind) (inp : ConnInput)
    (ctx : Ctx) (w : WState) (log : List Record)
    (h : (runSelected k inp ctx w log).result = .ok ()) :
    (runSelected k inp ctx w log).w.closed = true := by
  rcases inp with ⟨peer, rd, rds⟩
  rcases k with _ | cfg | ⟨echo, service, port⟩
  · exact absurd h (http_handler_raises peer rd ctx w log).1
  · simp only [runSelected] at h ⊢
    rcases hbd : bannerDecode cfg with e | bs
    · simp only [hbd] at h
      simp at h
    · simp only [hbd] at h ⊢
      exact banner_handler_ok_closed _ peer rd ctx w log h
  · exact generic_handler_closed _ peer rds _ w log h

/-- C3 amended witness: the banner handler on a timed-out read completes
normally and the writer is closed. -/
theorem C3_writer_closed_on_normal_exit_witness :
    (runSelected (.banner none) ⟨some ("1.2.3.4", 40000), .timeout, []⟩
        ⟨Sink.ok, none, none, none⟩ ⟨[], false⟩ []).w.closed = true :=
  C3_writer_closed_on_normal_exit (.banner none) ⟨some ("1.2.3.4", 40000), .timeout, []⟩
    ⟨Sink.ok, none, none, none⟩ ⟨[], false⟩ [] rfl

/-- C4: the supervisor does map an absent peername to null peer fields, but
the claim is also about the handlers, and there the line
`ctx["peer"], ctx["peer_port"] = peer[0], peer[1] if peer else (None, None)`
parses as `(peer[0], (peer[1] if peer else (None, None)))`, so with
`peername = None` every handler raises TypeError subscripting `None` instead
of storing nulls.  This theorem evaluates the code at the failing input. -/
theorem C4_absent_peername_raises_in_handlers :
    (http_handler none .timeout ⟨Sink.ok, none, none, none⟩ ⟨[], false⟩ []).result =
      .error (.typeError "NoneType object is not subscriptable") ∧
    (banner_handler (bannerBytesOf none) none .timeout
        ⟨Sink.ok, none, none, none⟩ ⟨[], false⟩ []).result =
      .error (.typeError "NoneType object is not subscriptable") ∧
    (generic_tcp_handler false none [] ⟨Sink.ok, none, none, none⟩ ⟨[], false⟩ []).result =
      .error (.typeError "NoneType object is not subscriptable") ∧
    superCtx Sink.ok none = ⟨Sink.ok, none, none, none⟩ := by
  refine ⟨rfl, rfl, rfl, rfl⟩

/-- C5: any exception escaping the selected handler is caught by
`client_connected`, which appends exactly one `handler_exception` record
carrying the listener port, the configured handler name and `str(e)`, and
returns normally (so the accept loop never sees the exception), provided the
listener logger write itself succeeds. -/
theorem C5_supervisor_catches_handler_exception (cfg : ListenerCfg) (sink : Sink)
    (inp : ConnInput) (w : WState) (log : List Record) (e : PyErr)
    (hr : (runSelected (selectKind cfg) inp (superCtx sink inp.peer) w log).result =
      .error e)
    (hs : sink.callFail = none) :
    (client_connected cfg sink inp w log).result = .ok () ∧
    (client_connected cfg sink inp w log).log =
      (runSelected (selectKind cfg) inp (superCtx sink inp.peer) w log).log ++
        [Record.e ⟨cfg.port, cfg.handler, errStr e⟩] := by
  simp [client_connected, hr, hs]

/-- C5 witness: the HTTP handler fault on a concrete connection yields one
handler_exception record and a normal return. -/
theorem C5_supervisor_catches_handler_exception_witness :
    (client_connected ⟨80, "http", none, false, none⟩ Sink.ok
        ⟨some ("1.2.3.4", 40000), .timeout, []⟩ ⟨[], false⟩ []).result = .ok () ∧
    (client_connected ⟨80, "http", none, false, none⟩ Sink.ok
        ⟨some ("1.2.3.4", 40000), .timeout, []⟩ ⟨[], false⟩ []).log =
      (runSelected (selectKind ⟨80, "http", none, false, none⟩)
          ⟨some ("1.2.3.4", 40000), .timeout, []⟩
          (superCtx Sink.ok (some ("1.2.3.4", 40000))) ⟨[], false⟩ []).log ++
        [Record.e ⟨80, "http", errStr (.attributeError "bytes object has no attribute format")⟩] :=
  C5_supervisor_catches_handler_exception ⟨80, "http", none, false, none⟩ Sink.ok
    ⟨some ("1.2.3.4", 40000), .timeout, []⟩ ⟨[], false⟩ []
    (.attributeError "bytes object has no attribute format") rfl rfl

lemma generic_loop_spec (echo : Bool) (ctx : Ctx) (chunks : List Bytes)
    (hne : ∀ c ∈ chunks, c ≠ []) (hs : ctx.logger.callOk) :
    ∀ (w : WState) (log : List Record),
    generic_loop echo ctx (chunks.map GRead.chunk) w log =
      ({ w with written := w.written ++ (if echo then chunks else []) },
       log ++ chunks.map (fun c => Record.i (mkRecord ctx "client" c)),
       Except.ok ()) := by
  induction chunks with
  | nil => intro w log; simp [generic_loop]
  | cons c rest ih =>
    intro w log
    have hc : c ≠ [] := hne c (by simp)
    have hr : ∀ x ∈ rest, x ≠ [] := fun x hx => hne x (by simp [hx])
    rcases c with _ | ⟨b0, bs⟩
    · exact absurd rfl hc
    · show generic_loop echo ctx (GRead.chunk (b0 :: bs) :: rest.map GRead.chunk) w log = _
      unfold generic_loop
      rw [log_interaction_ok ctx "client" (b0 :: bs) log hs]
      simp only
      rw [ih hr]
      rcases echo <;> simp

/-- C6 counterexample: the claim says that with echo enabled each chunk is
both written back and logged as a server-role record.  On a concrete
connection sending `b"ping"` with echo enabled, the chunk is echoed but the
log contains only the client-role record — no server-role record is ever
produced by `generic_tcp_handler`. -/
theorem C6_counterexample_echo_without_server_record :
    (generic_tcp_handler true (some ("9.9.9.9", 1234)) [.chunk [112, 105, 110, 103]]
        ⟨Sink.ok, none, none, none⟩ ⟨[], false⟩ []).w.written = [[112, 105, 110, 103]] ∧
    (generic_tcp_handler true (some ("9.9.9.9", 1234)) [.chunk [112, 105, 110, 103]]
        ⟨Sink.ok, none, none, none⟩ ⟨[], false⟩ []).log =
      [Record.i (mkRecord ⟨Sink.ok, some "9.9.9.9", some 1234, some "tcp"⟩
        "client" [112, 105, 110, 103])] ∧
    ((generic_tcp_handler true (some ("9.9.9.9", 1234)) [.chunk [112, 105, 110, 103]]
        ⟨Sink.ok, none, none, none⟩ ⟨[], false⟩ []).log.filter isServerRecord) = [] := by
  refine ⟨rfl, rfl, rfl⟩

/-- C6 amended: for every sequence of non-empty chunks read with a working
sink, the generic handler echoes each chunk back exactly when `echo` is
enabled and in both modes logs each chunk as a client-role record only; it
then completes normally with the writer closed. -/
theorem C6_generic_echo_and_client_logging (echo : Bool) (chunks : List Bytes)
    (a : String) (p : Nat) (ctx : Ctx) (w : WState) (log : List Record)
    (hne : ∀ c ∈ chunks, c ≠ []) (hs : ctx.logger.callOk) :
    (generic_tcp_handler echo (some (a, p)) (chunks.map GRead.chunk) ctx w log).w.written =
      w.written ++ (if echo then chunks else []) ∧
    (generic_tcp_handler echo (some (a, p)) (chunks.map GRead.chunk) ctx w log).log =
      log ++ chunks.map (fun c => Record.i (mkRecord (genericCtx ctx a p) "client" c)) ∧
    (generic_tcp_handler echo (some (a, p)) (chunks.map GRead.chunk) ctx w log).result =
      .ok () ∧
    (generic_tcp_handler echo (some (a, p)) (chunks.map GRead.chunk) ctx w log).w.closed =
      true := by
  have hs2 : (genericCtx ctx a p).logger.callOk := hs
  have hloop := generic_loop_spec echo (genericCtx ctx a p) chunks hne hs2 w log
  unfold genericCtx at hloop
  unfold generic_tcp_handler setPeerInfo
  simp only
  rw [hloop]
  simp [genericCtx]

/-- C6 amended witness at a concrete input with echo disabled. -/
theorem C6_generic_echo_and_client_logging_witness :
    (generic_tcp_handler false (some ("9.9.9.9", 1234)) ([[112, 105, 110, 103]].map GRead.chunk)
        ⟨Sink.ok, none, none, none⟩ ⟨[], false⟩ []).w.written =
      [] ++ (if false then [[112, 105, 110, 103]] else []) ∧
    (generic_tcp_handler false (some ("9.9.9.9", 1234)) ([[112, 105, 110, 103]].map GRead.chunk)
        ⟨Sink.ok, none, none, none⟩ ⟨[], false⟩ []).log =
      [] ++ [[112, 105, 110, 103]].map (fun c => Record.i
        (mkRecord (genericCtx ⟨Sink.ok, none, none, none⟩ "9.9.9.9" 1234) "client" c)) ∧
    (generic_tcp_handler false (some ("9.9.9.9", 1234)) ([[112, 105, 110, 103]].map GRead.chunk)
        ⟨Sink.ok, none, none, none⟩ ⟨[], false⟩ []).result = .ok () ∧
    (generic_tcp_handler false (some ("9.9.9.9", 1234)) ([[112, 105, 110, 103]].map GRead.chunk)
        ⟨Sink.ok, none, none, none⟩ ⟨[], false⟩ []).w.closed = true :=
  C6_generic_echo_and_client_logging false [[112, 105, 110, 103]] "9.9.9.9" 1234
    ⟨Sink.ok, none, none, none⟩ ⟨[], false⟩ [] (by decide) rfl

/-- C7: the timeout branch itself behaves as claimed — the expired read
becomes empty data, no client record is emitted and no exception is raised by
the timeout handling.  The banner handler then proceeds to close as claimed;
but the http handler, after treating the timeout as "no data", raises
AttributeError at the response-formatting step (the bytes/format slip), so
for http the claim that the handler "does not raise, and proceeds to its next
step (response/close)" fails.  This theorem evaluates both handlers on a
timed-out read. -/
theorem C7_timeout_empty_data_paths :
    (banner_handler (bannerBytesOf none) (some ("1.2.3.4", 40000)) .timeout
        ⟨Sink.ok, none, none, none⟩ ⟨[], false⟩ []).result = .ok () ∧
    (banner_handler (bannerBytesOf none) (some ("1.2.3.4", 40000)) .timeout
        ⟨Sink.ok, none, none, none⟩ ⟨[], false⟩ []).w.closed = true ∧
    (banner_handler (bannerBytesOf none) (some ("1.2.3.4", 40000)) .timeout
        ⟨Sink.ok, none, none, none⟩ ⟨[], false⟩ []).log =
      [Record.i (mkRecord ⟨Sink.ok, some "1.2.3.4", some 40000, some "banner"⟩
        "server" (bannerBytesOf none))] ∧
    (http_handler (some ("1.2.3.4", 40000)) .timeout
        ⟨Sink.ok, none, none, none⟩ ⟨[], false⟩ []).result =
      .error (.attributeError "bytes object has no attribute format") ∧
    (http_handler (some ("1.2.3.4", 40000)) .timeout
        ⟨Sink.ok, none, none, none⟩ ⟨[], false⟩ []).log = [] ∧
    (http_handler (some ("1.2.3.4", 40000)) .timeout
        ⟨Sink.ok, none, none, none⟩ ⟨[], false⟩ []).w.written = [] := by
  refine ⟨rfl, rfl, rfl, rfl, rfl, rfl⟩

/-- C8: for every configured banner string whose escape decoding succeeds
(hypothesis `bannerDecode cfg = .ok bs`, excluding the strings on which the
Python codec raises — truncated backslash-x/u/U escapes, a trailing lone
backslash, surrogate escapes — and backslash-N named escapes, whose decoding
needs the environmental Unicode name database and which the model
conservatively treats as undecodable), the decoded bytes are the only bytes
the banner path ever writes, identically for every read outcome and sink —
hence before and independently of anything the client sends.  The second
conjunct instantiates the decoding on the spec's example: a configured
two-character backslash-r backslash-n arrives as bytes ending in CR LF.  The
last two conjuncts exercise the error path at a concrete malformed
configuration (truncated backslash-x): the decode raises and nothing is
written to the peer. -/
theorem C8_banner_escape_decoded_and_sent_first (cfg : Option String) (bs : Bytes)
    (a : String) (p : Nat) (rd : ReadRes) (rds : List GRead)
    (ctx : Ctx) (w : WState) (log : List Record)
    (hdec : bannerDecode cfg = .ok bs) :
    (runSelected (.banner cfg) ⟨some (a, p), rd, rds⟩ ctx w log).w.written =
      w.written ++ [bs] ∧
    bannerDecode (some "SSH-2.0-OpenSSH_7.4\\r\\n") =
      .ok (pyEncode "SSH-2.0-OpenSSH_7.4" ++ [13, 10]) ∧
    bannerDecode (some "oops\\x") = .error .unicodeDecodeError ∧
    (runSelected (.banner (some "oops\\x")) ⟨some (a, p), rd, rds⟩ ctx w log).w.written =
      w.written := by
  refine ⟨?_, rfl, rfl, rfl⟩
  simp only [runSelected]
  rw [hdec]
  obtain ⟨⟨ic, cf, ff⟩, cp, cpp, cs⟩ := ctx
  rcases rd with b | _ | e <;>
    rcases ic <;> rcases cf with _ | e1 <;> rcases ff with _ | e2 <;>
    simp [banner_handler, setPeerInfo, readOutcome, log_interaction] <;>
    split <;> simp

/-- C8 witness: the spec's example configuration decodes to CR LF terminated
bytes which are transmitted on a concrete connection, and the concrete
malformed configuration raises with nothing written. -/
theorem C8_banner_escape_decoded_and_sent_first_witness :
    (runSelected (.banner (some "SSH-2.0-OpenSSH_7.4\\r\\n"))
        ⟨some ("1.2.3.4", 40000), .timeout, []⟩
        ⟨Sink.ok, none, none, none⟩ ⟨[], false⟩ []).w.written =
      [] ++ [pyEncode "SSH-2.0-OpenSSH_7.4" ++ [13, 10]] ∧
    bannerDecode (some "SSH-2.0-OpenSSH_7.4\\r\\n") =
      .ok (pyEncode "SSH-2.0-OpenSSH_7.4" ++ [13, 10]) ∧
    bannerDecode (some "oops\\x") = .error .unicodeDecodeError ∧
    (runSelected (.banner (some "oops\\x"))
        ⟨some ("1.2.3.4", 40000), .timeout, []⟩
        ⟨Sink.ok, none, none, none⟩ ⟨[], false⟩ []).w.written = [] :=
  C8_banner_escape_decoded_and_sent_first (some "SSH-2.0-OpenSSH_7.4\\r\\n")
    (pyEncode "SSH-2.0-OpenSSH_7.4" ++ [13, 10]) "1.2.3.4" 40000 .timeout []
    ⟨Sink.ok, none, none, none⟩ ⟨[], false⟩ [] rfl

/-- Diagnostic line printed by `run_from_config` for a failed bind,
distinguishing PermissionError from other failures. -/
def bindDiag (c : ListenerCfg) : PyErr → String
  | .permissionError => "Errore: permessi insufficienti per aprire porta " ++ toString c.port
  | e => "Errore creazione listener: " ++ errStr e

/-- C9: startup returns exactly the handles of the listeners whose bind
succeeded, whatever mix of PermissionError or other bind failures the
remaining listeners hit, and each failed listener yields exactly one
diagnostic for itself; no bind failure aborts the loop (the function is total
and never raises). -/
theorem C9_partial_startup_keeps_other_listeners (bindEnv : ListenerCfg → Option PyErr)
    (cfgs : List ListenerCfg) :
    (run_from_config bindEnv cfgs).1 = cfgs.filter (fun c => (bindEnv c).isNone) ∧
    (run_from_config bindEnv cfgs).2 =
      cfgs.filterMap (fun c => (bindEnv c).map (bindDiag c)) := by
  induction cfgs with
  | nil => exact ⟨rfl, rfl⟩
  | cons c rest ih =>
    obtain ⟨ih1, ih2⟩ := ih
    rcases hb : bindEnv c with _ | e
    · simp [run_from_config, start_listener, hb, ih1, ih2]
    · rcases e <;>
        simp [run_from_config, start_listener, hb, ih1, ih2, bindDiag]

/-- C10: every record `log_interaction` appends has `raw_hex` equal to the
exact lowercase hex encoding of the input bytes (exactness stated as a
round-trip through the spec-side decoder plus the lowercase-hex alphabet
check) and `raw_text` non-null: the UTF-8 decode with replacement always
succeeds, so the initial null is always overwritten. -/
theorem C10_raw_hex_exact_and_raw_text_nonnull (ctx : Ctx) (role : String)
    (data : Bytes) (log : List Record) (h : ∀ b ∈ data, b < 256) :
    (∀ l, log_interaction ctx role data log = .ok l →
      l = log ++ [Record.i (mkRecord ctx role data)]) ∧
    unhexBytes (mkRecord ctx role data).raw_hex = some data ∧
    (∀ c ∈ (mkRecord ctx role data).raw_hex, isLowerHexDigit c = true) ∧
    (mkRecord ctx role data).raw_text ≠ none := by
  refine ⟨?_, ?_, ?_, ?_⟩
  · intro l hl
    unfold log_interaction at hl
    split at hl <;> split at hl <;> simp_all
  · exact unhex_hexlify data h
  · exact hexlify_lower data h
  · simp [mkRecord]

/-- C10 witness at a concrete byte string. -/
theorem C10_raw_hex_exact_and_raw_text_nonnull_witness :
    (∀ l, log_interaction ⟨Sink.ok, none, none, none⟩ "client" [222, 173] [] = .ok l →
      l = [] ++ [Record.i (mkRecord ⟨Sink.ok, none, none, none⟩ "client" [222, 173])]) ∧
    unhexBytes (mkRecord ⟨Sink.ok, none, none, none⟩ "client" [222, 173]).raw_hex =
      some [222, 173] ∧
    (∀ c ∈ (mkRecord ⟨Sink.ok, none, none, none⟩ "client" [222, 173]).raw_hex,
      isLowerHexDigit c = true) ∧
    (mkRecord ⟨Sink.ok, none, none, none⟩ "client" [222, 173]).raw_text ≠ none :=
  C10_raw_hex_exact_and_raw_text_nonnull ⟨Sink.ok, none, none, none⟩ "client"
    [222, 173] [] (by decide)
